import Mathlib

/-!
Verification of the popart POP3 session engine against its specification.

The definitions below are a shallow embedding of the session engine found in
the repository (the polished `session.go` variant together with the validator
table and `error.go`).  Go maps used as sets are modelled as `Finset Nat`, the
ordinal-keyed size map (populated exactly at keys `1..count`) as a `List Nat`
indexed by `ordinal - 1`, `uint64` arithmetic as `Nat`/`Int` arithmetic with
explicit `% 2^64` where the Go code can wrap, and fallible Go calls as
`Option`/`Except` results.  Side effects (lines written to the client and
calls into the injected backend `Handler`) are recorded as an explicit event
list; writes to the client are assumed to succeed (transport failures are
outside the model).
-/

/-! ## Session states (the `iota` constants) -/

def stateAuthorization : Nat := 0

def stateTransaction : Nat := 1

def stateUpdate : Nat := 2

def stateTerminateConnection : Nat := 3

/-! ## Errors

Go `error` values are modelled by `GoError`: `reportable` corresponds to the
`ReportableError` type from `error.go` (carrying its formatted message),
`eofErr` to `io.EOF`, and `plain` to any other `error`.  The format-string
calls `fmt.Sprintf`/`NewReportableError(format, args...)` are modelled by
building the formatted message directly at each call site. -/

inductive GoError where
  | reportable (msg : String)
  | eofErr
  | plain (msg : String)
deriving DecidableEq

def GoError.isReportable : GoError → Bool
  | .reportable _ => true
  | _ => false

def GoError.message : GoError → String
  | .reportable m => m
  | .eofErr => "EOF"
  | .plain m => m

def errInvalidSyntax : GoError := GoError.reportable "invalid syntax"

def errUnexpectedState : GoError := GoError.reportable "unexpected state transition"

/-! ## Server, session and backend handler -/

structure Server where
  APOP : Bool
  capabilities : List String
deriving DecidableEq

/-- The per-connection `session` struct: `markedDeleted` is the
`map[uint64]struct{}` used as a set, `msgSizes` the `map[uint64]uint64`
populated at keys `1..count` (entry `i` of the list is the size of ordinal
`i+1`). -/
structure Session where
  server : Server
  state : Nat
  username : String
  markedDeleted : Finset Nat
  msgSizes : List Nat
deriving DecidableEq

/-- Events recorded by the model: lines written to the client and calls made
into the backend `Handler`. -/
inductive Event where
  | wireOK (msg : String)
  | wireERR (msg : String)
  | wireLine (msg : String)
  | wireData (msg : String)
  | callLock
  | callUnlock
  | callDelete (msgs : Finset Nat)
  | callSessionError
deriving DecidableEq

/-- The injected backend capability object (the `Handler` interface).  Each
method is modelled by its result; `none`/`Except.ok` means the Go call
returned a nil error.  `GetMessageReader` yields the message content as a
list of lines (the `textproto` reader reads it line by line). -/
structure Handler where
  AuthenticatePASS : String → String → Option GoError
  AuthenticateAPOP : String → String → Option GoError
  LockMaildrop : Option GoError
  UnlockMaildrop : Option GoError
  GetMessageCount : Except GoError Nat
  GetMessageSize : Nat → Except GoError Nat
  GetMessageReader : Nat → Except GoError (List String)
  GetMessageID : Nat → Except GoError String
  DeleteMessages : Finset Nat → Option GoError

/-- Result of one operation handler: the updated session, the events it
produced, and its returned `error`. -/
abbrev HRes := Session × List Event × Option GoError

/-! ## Line parsing helpers -/

/-- `strconv.ParseUint(sID, 10, 64)`: rejects the empty string, any
non-digit character, and values that do not fit in 64 bits. -/
def parseUint64 (str : String) : Option Nat :=
  let cs := str.toList
  if cs = [] then none
  else if cs.all (fun c => c.isDigit) then
    let n := cs.foldl (fun acc c => acc * 10 + (c.toNat - 48)) 0
    if n < 2 ^ 64 then some n else none
  else none

/-- Core of `strings.Split(line, " ")`: split a character list at every
space, keeping empty fields; the result is always non-empty. -/
def splitChars : List Char → List (List Char)
  | [] => [[]]
  | c :: rest =>
    if c = ' ' then [] :: splitChars rest
    else
      match splitChars rest with
      | [] => [[c]]
      | w :: ws => (c :: w) :: ws

/-- `strings.Split(line, " ")`. -/
def splitOnSpace (line : String) : List String :=
  (splitChars line.toList).map (fun cs => String.mk cs)

/-- `strings.ToUpper` (the inputs of interest are ASCII). -/
def upperStr (s : String) : String :=
  String.mk (s.toList.map Char.toUpper)

/-! ## Command validators -/

structure Validator where
  allowedStates : List Nat
  allowedArities : List Nat
deriving DecidableEq

/-- `validator.allowedState`: the loop over `allowedStates` succeeds exactly
when the current state is a member. -/
def Validator.allowedState (v : Validator) (s : Session) : Option GoError :=
  if s.state ∈ v.allowedStates then none else some errUnexpectedState

/-- `validator.allowedArity`: the loop over `allowedArities`. -/
def Validator.allowedArity (v : Validator) (args : List String) : Option GoError :=
  if args.length ∈ v.allowedArities then none else some errInvalidSyntax

/-- `validator.validate`: state legality first, then argument arity. -/
def Validator.validate (v : Validator) (s : Session) (args : List String) : Option GoError :=
  match v.allowedState s with
  | some err => some err
  | none => v.allowedArity args

/-- The `validators` map literal, as an association list. -/
def validatorList : List (String × Validator) :=
  [ ("APOP", ⟨[stateAuthorization], [2]⟩),
    ("DELE", ⟨[stateTransaction], [1]⟩),
    ("LIST", ⟨[stateTransaction], [0, 1]⟩),
    ("NOOP", ⟨[stateTransaction], [0]⟩),
    ("PASS", ⟨[stateAuthorization], [1]⟩),
    ("QUIT", ⟨[stateAuthorization, stateTransaction], [0]⟩),
    ("RETR", ⟨[stateTransaction], [1]⟩),
    ("RSET", ⟨[stateTransaction], [0]⟩),
    ("STAT", ⟨[stateTransaction], [0]⟩),
    ("TOP", ⟨[stateTransaction], [2]⟩),
    ("UIDL", ⟨[stateTransaction], [0, 1]⟩),
    ("USER", ⟨[stateAuthorization], [1]⟩) ]

/-- Lookup in the `validators` map. -/
def validators (cmd : String) : Option Validator :=
  (validatorList.find? (fun p => p.1 == cmd)).map Prod.snd

/-! ## Snapshot getters -/

/-- `getMessageCount`: `uint64(len(s.msgSizes) - len(s.markedDeleted))`,
computed in Go `int` arithmetic and then converted to `uint64` (hence the
`% 2^64` on the signed difference). -/
def getMessageCount (s : Session) : Nat :=
  ((((s.msgSizes.length : Int) - (s.markedDeleted.card : Int)) % (2 : Int) ^ 64)).toNat

/-- `getMaildropSize`: sum the sizes of the non-deleted ordinals in `uint64`
arithmetic.  The Go code ranges over the map in unspecified order; since
addition is commutative the ordinal-order fold is an equivalent model. -/
def getMaildropSize (s : Session) : Nat :=
  (List.range s.msgSizes.length).foldl
    (fun acc i => if (i + 1) ∈ s.markedDeleted then acc else (acc + s.msgSizes.getD i 0) % 2 ^ 64)
    0

/-! ## Shared handler plumbing -/

/-- `respondOK`: a `+OK`-prefixed line with the formatted message. -/
def respondOK (msg : String) : Event := Event.wireOK msg

/-- `withMessageDo`: parse the ordinal, check it is in range and not marked
deleted, then run the callback. -/
def withMessageDo (s : Session) (sID : String) (fn : Nat → HRes) : HRes :=
  match parseUint64 sID with
  | none => (s, [], some errInvalidSyntax)
  | some msgID =>
    if msgID = 0 ∨ msgID > s.msgSizes.length then
      (s, [], some (GoError.reportable ("no such message: " ++ toString msgID)))
    else if msgID ∈ s.markedDeleted then
      (s, [], some (GoError.reportable ("message " ++ toString msgID ++ " already deleted")))
    else fn msgID

/-- Loop body of `forEachMessage`: iterate ordinals `i+1 .. i+fuel`,
skipping deleted ones, printing each produced line into the dot-writer. -/
def forEachFrom (s : Session) (fn : Nat → Except GoError String) : Nat → Nat → List Event × Option GoError
  | _, 0 => ([], none)
  | i, fuel + 1 =>
    if (i + 1) ∈ s.markedDeleted then forEachFrom s fn (i + 1) fuel
    else
      match fn (i + 1) with
      | .error e => ([], some e)
      | .ok line =>
        let rest := forEachFrom s fn (i + 1) fuel
        (Event.wireData line :: rest.1, rest.2)

/-- `forEachMessage`. -/
def forEachMessage (s : Session) (fn : Nat → Except GoError String) : HRes :=
  let r := forEachFrom s fn 0 s.msgSizes.length
  (s, r.1, r.2)

/-! ## Sign-in and maildrop statistics -/

/-- Loop body of `fetchMaildropStats`: fetch the sizes of ordinals
`i+1 .. i+fuel`, stopping (with the sizes collected so far kept) at the
first backend failure. -/
def fetchSizes (h : Handler) : Nat → Nat → List Nat × Option GoError
  | _, 0 => ([], none)
  | i, fuel + 1 =>
    match h.GetMessageSize (i + 1) with
    | .error e => ([], some e)
    | .ok sz =>
      let rest := fetchSizes h (i + 1) fuel
      (sz :: rest.1, rest.2)

/-- `fetchMaildropStats`: query the message count, then the size of every
ordinal `1..count`; returns the sizes written into `msgSizes` (keys are
assigned in ordinal order) and the first error, if any. -/
def fetchMaildropStats (h : Handler) : List Nat × Option GoError :=
  match h.GetMessageCount with
  | .error e => ([], some e)
  | .ok count => fetchSizes h 0 count

/-- `signIn`: lock the maildrop (failure propagates, state untouched), move
to Transaction, populate the snapshot, then acknowledge. -/
def signIn (h : Handler) (s : Session) : HRes :=
  match h.LockMaildrop with
  | some e => (s, [Event.callLock], some e)
  | none =>
    let s1 : Session := { s with state := stateTransaction }
    let stats := fetchMaildropStats h
    let s2 : Session := { s1 with msgSizes := s1.msgSizes ++ stats.1 }
    match stats.2 with
    | some e => (s2, [Event.callLock], some e)
    | none =>
      (s2,
       [Event.callLock,
        respondOK (s2.username ++ "'s maildrop has " ++ toString (getMessageCount s2)
          ++ " messages (" ++ toString (getMaildropSize s2) ++ " octets)")],
       none)

/-! ## Command handlers -/

def handleAPOP (h : Handler) (s : Session) (args : List String) : HRes :=
  if s.server.APOP = false then
    (s, [], some (GoError.reportable "server does not support APOP"))
  else
    match h.AuthenticateAPOP (args.getD 0 "") (args.getD 1 "") with
    | some e => (s, [], some e)
    | none => signIn h s

def handleCAPA (_h : Handler) (s : Session) (_args : List String) : HRes :=
  (s, respondOK "Capability list follows" :: s.server.capabilities.map Event.wireData, none)

def handleDELE (_h : Handler) (s : Session) (args : List String) : HRes :=
  withMessageDo s (args.getD 0 "") fun msgID =>
    ({ s with markedDeleted := insert msgID s.markedDeleted },
     [respondOK ("message " ++ toString msgID ++ " deleted")],
     none)

def handleLIST (_h : Handler) (s : Session) (args : List String) : HRes :=
  if args.length = 1 then
    withMessageDo s (args.getD 0 "") fun msgID =>
      (s, [respondOK (toString msgID ++ " " ++ toString (s.msgSizes.getD (msgID - 1) 0))], none)
  else
    forEachMessage s fun msgID =>
      .ok (toString msgID ++ " " ++ toString (s.msgSizes.getD (msgID - 1) 0))

def handleNOOP (_h : Handler) (s : Session) (_args : List String) : HRes :=
  (s, [respondOK "doing nothing"], none)

def handlePASS (h : Handler) (s : Session) (args : List String) : HRes :=
  if s.username = "" then
    (s, [], some (GoError.reportable "please provide username first"))
  else
    match h.AuthenticatePASS s.username (args.getD 0 "") with
    | some e => (s, [], some e)
    | none => signIn h s

/-- `handleQUIT`: in Authorization say goodbye at once; otherwise enter
Update, collect the marked ordinals into `delMsg` and make the single
`DeleteMessages` call.  Go builds `delMsg` by ranging over the map, whose
iteration order is unspecified, so the well-defined content of the call is
exactly the set of keys: the model passes that set (both to the backend and
into the recorded `callDelete` event). -/
def handleQUIT (h : Handler) (s : Session) (_args : List String) : HRes :=
  if s.state = stateAuthorization then
    ({ s with state := stateTerminateConnection },
     [respondOK "dewey POP3 server signing off"], none)
  else
    let s1 : Session := { s with state := stateUpdate }
    let delMsg := s1.markedDeleted
    match h.DeleteMessages delMsg with
    | some e => (s1, [Event.callDelete delMsg], some e)
    | none =>
      ({ s1 with state := stateTerminateConnection },
       [Event.callDelete delMsg, respondOK "dewey POP3 server signing off"],
       none)

def handleRETR (h : Handler) (s : Session) (args : List String) : HRes :=
  withMessageDo s (args.getD 0 "") fun msgID =>
    let okEv := respondOK (toString (s.msgSizes.getD (msgID - 1) 0) ++ " octets")
    match h.GetMessageReader msgID with
    | .error e => (s, [okEv], some e)
    | .ok lines => (s, okEv :: lines.map Event.wireData, none)

def handleRSET (_h : Handler) (s : Session) (_args : List String) : HRes :=
  let s1 : Session := { s with markedDeleted := ∅ }
  (s1,
   [respondOK ("maildrop has " ++ toString (getMessageCount s1) ++ " messages ("
      ++ toString (getMaildropSize s1) ++ " octets)")],
   none)

def handleSTAT (_h : Handler) (s : Session) (_args : List String) : HRes :=
  (s, [respondOK (toString (getMessageCount s) ++ " " ++ toString (getMaildropSize s))], none)

/-- One `ReadLineBytes` step on the remaining message content: at
end-of-content it yields an empty line together with `io.EOF`. -/
def readLineFrom : List String → String × Option GoError × List String
  | [] => ("", some GoError.eofErr, [])
  | l :: rest => (l, none, rest)

/-- `printTopLine`: write the line when the read error is nil or `io.EOF`;
return the read error when non-nil (note: `io.EOF` included); otherwise
write the newline. -/
def printTopLine (line : String) (readErr : Option GoError) : List Event × Option GoError :=
  match readErr with
  | none => ([Event.wireData line, Event.wireData "\n"], none)
  | some GoError.eofErr => ([Event.wireData line], some GoError.eofErr)
  | some e => ([], some e)

/-- The `for i < noLines` loop of `handleTOP`. -/
def topLoop : List String → Nat → List Event × Option GoError
  | _, 0 => ([], none)
  | lines, k + 1 =>
    let r := readLineFrom lines
    let p := printTopLine r.1 r.2.1
    match p.2 with
    | some e => (p.1, some e)
    | none =>
      let rest := topLoop r.2.2 k
      (p.1 ++ rest.1, rest.2)

def handleTOP (h : Handler) (s : Session) (args : List String) : HRes :=
  withMessageDo s (args.getD 0 "") fun msgID =>
    match parseUint64 (args.getD 1 "") with
    | none => (s, [], some errInvalidSyntax)
    | some noLines =>
      match h.GetMessageReader msgID with
      | .error e => (s, [Event.wireLine "+OK"], some e)
      | .ok lines =>
        let r := topLoop lines noLines
        (s, Event.wireLine "+OK" :: r.1, r.2)

def handleUIDL (h : Handler) (s : Session) (args : List String) : HRes :=
  if args.length = 1 then
    withMessageDo s (args.getD 0 "") fun msgID =>
      match h.GetMessageID msgID with
      | .error e => (s, [], some e)
      | .ok uidl => (s, [respondOK (toString msgID ++ " " ++ uidl)], none)
  else
    forEachMessage s fun msgID =>
      (h.GetMessageID msgID).map (fun uidl => toString msgID ++ " " ++ uidl)

def handleUSER (_h : Handler) (s : Session) (args : List String) : HRes :=
  ({ s with username := args.getD 0 "" },
   [respondOK ("welcome " ++ args.getD 0 "")], none)

/-! ## Error classification and the serve loop -/

/-- `handleError`: nil continues; a `ReportableError` is written back as an
`-ERR` line and the session continues; anything else forces the state to
TerminateConnection and is handed to `HandleSessionError`. -/
def handleError (s : Session) (err : Option GoError) (shouldContinue : Bool) :
    Session × List Event × Bool :=
  match err with
  | none => (s, [], shouldContinue)
  | some e =>
    if e.isReportable then (s, [Event.wireERR e.message], shouldContinue)
    else ({ s with state := stateTerminateConnection }, [Event.callSessionError], shouldContinue)

/-- The `operationHandlers` map literal, as an association list. -/
def handlerList : List (String × (Handler → Session → List String → HRes)) :=
  [ ("APOP", handleAPOP),
    ("CAPA", handleCAPA),
    ("DELE", handleDELE),
    ("LIST", handleLIST),
    ("NOOP", handleNOOP),
    ("PASS", handlePASS),
    ("QUIT", handleQUIT),
    ("RETR", handleRETR),
    ("RSET", handleRSET),
    ("STAT", handleSTAT),
    ("TOP", handleTOP),
    ("UIDL", handleUIDL),
    ("USER", handleUSER) ]

/-- Lookup in the `operationHandlers` map. -/
def operationHandlers (cmd : String) : Option (Handler → Session → List String → HRes) :=
  (handlerList.find? (fun p => p.1 == cmd)).map Prod.snd

/-- `serveOne`: one command/response interaction with the client, given the
line that was read.  The boolean result is `keepGoing`.  Every verb in the
validator table also appears in `operationHandlers`, so the final `none`
branch is unreachable. -/
def serveOne (h : Handler) (s : Session) (line : String) : Session × List Event × Bool :=
  if s.state = stateTerminateConnection then (s, [], false)
  else
    let args := splitOnSpace line
    let command := upperStr (args.headD "")
    match validators command with
    | none => handleError s (some errInvalidSyntax) true
    | some v =>
      match v.validate s args.tail with
      | some err => handleError s (some err) true
      | none =>
        match operationHandlers command with
        | none => (s, [], true)
        | some f =>
          let r := f h s args.tail
          let r2 := handleError r.1 r.2.2 true
          (r2.1, r.2.1 ++ r2.2.1, r2.2.2)

/-- `unlock` (run by `defer` when `serve` exits): release the maildrop lock
unless the state is still Authorization; an unlock failure is passed to
`HandleSessionError`. -/
def unlock (h : Handler) (s : Session) : List Event :=
  if s.state = stateAuthorization then []
  else
    match h.UnlockMaildrop with
    | some _ => [Event.callUnlock, Event.callSessionError]
    | none => [Event.callUnlock]

/-- The `serve` loop over a finite list of incoming lines: each iteration
first checks for the TerminateConnection state (exiting the loop runs the
deferred `unlock` and closes the connection); otherwise the next line is
read and processed.  The boolean result records whether the loop exited
(i.e. the connection was closed by the server); if the lines run out with
the session still live the loop would block awaiting further input. -/
def serve (h : Handler) (s : Session) : List String → Session × List Event × Bool
  | [] =>
    if s.state = stateTerminateConnection then (s, unlock h s, true)
    else (s, [], false)
  | line :: rest =>
    if s.state = stateTerminateConnection then (s, unlock h s, true)
    else
      let r := serveOne h s line
      let r2 := serve h r.1 rest
      (r2.1, r.2.1 ++ r2.2.1, r2.2.2)

/-! ## Concrete fixtures used by witnesses and counterexamples -/

/-- A backend on which every call succeeds; the maildrop holds two messages
of sizes 100 and 200, each message body being the single line "hello". -/
def okHandler : Handler :=
  { AuthenticatePASS := fun _ _ => none
    AuthenticateAPOP := fun _ _ => none
    LockMaildrop := none
    UnlockMaildrop := none
    GetMessageCount := Except.ok 2
    GetMessageSize := fun n => Except.ok (100 * n)
    GetMessageReader := fun _ => Except.ok ["hello"]
    GetMessageID := fun n => Except.ok ("id" ++ toString n)
    DeleteMessages := fun _ => none }

/-- A signed-in session in Transaction state over the two-message snapshot. -/
def sTrans : Session :=
  { server := ⟨false, []⟩, state := stateTransaction, username := "u",
    markedDeleted := ∅, msgSizes := [100, 200] }

/-- `sTrans` with ordinal 1 already marked deleted. -/
def sTd : Session := { sTrans with markedDeleted := {1} }

/-- A fresh session still in Authorization state with a username on file. -/
def sAuth : Session :=
  { server := ⟨false, []⟩, state := stateAuthorization, username := "alice",
    markedDeleted := ∅, msgSizes := [] }

/-- `okHandler`, except that the batch deletion fails with a reportable
error. -/
def delFailHandler : Handler :=
  { okHandler with DeleteMessages := fun _ => some (GoError.reportable "db down") }

/-- `okHandler`, except that fetching the size of ordinal 2 (of 3) fails
with a reportable error. -/
def fetchFailHandler : Handler :=
  { okHandler with
    GetMessageCount := Except.ok 3
    GetMessageSize := fun n =>
      if n = 2 then Except.error (GoError.reportable "disk error") else Except.ok (100 * n) }

/-- `okHandler`, except that fetching the message count fails with a plain
(non-reportable) error. -/
def countFailHandler : Handler :=
  { okHandler with GetMessageCount := Except.error (GoError.plain "boom") }

/-- Recognises the backend-deletion-call event. -/
def isDeleteCall : Event → Bool
  | .callDelete _ => true
  | _ => false

/-- The spec's description of the visible maildrop size: the sum of the
snapshot sizes over the non-deleted ordinals.  Stated independently of the
code's fold so that `getMaildropSize` can be compared against it. -/
def specVisibleSize (s : Session) : Nat :=
  ((List.range s.msgSizes.length).map
    fun i => if (i + 1) ∈ s.markedDeleted then 0 else s.msgSizes.getD i 0).sum

/-! ## Helper lemmas -/

/-- Any validator produced by the table lookup is one of the twelve table
entries. -/
theorem validators_mem {cmd : String} {v : Validator} (h : validators cmd = some v) :
    v ∈ validatorList.map Prod.snd := by
  unfold validators at h
  cases hf : validatorList.find? (fun p => p.1 == cmd) with
  | none => rw [hf] at h; cases h
  | some p =>
    rw [hf] at h
    simp only [Option.map_some', Option.some.injEq] at h
    exact h ▸ List.mem_map_of_mem Prod.snd (List.mem_of_find?_eq_some hf)

/-- No registered verb is legal in the Update state. -/
theorem validatorStates_noUpdate :
    ∀ v ∈ validatorList.map Prod.snd, stateUpdate ∉ v.allowedStates := by decide

/-- A failed validation always yields one of the two reportable protocol
errors. -/
theorem validate_reportable (v : Validator) (s : Session) (args : List String) (err : GoError)
    (h : v.validate s args = some err) : err.isReportable = true := by
  unfold Validator.validate Validator.allowedState Validator.allowedArity at h
  by_cases h1 : s.state ∈ v.allowedStates <;>
    by_cases h2 : args.length ∈ v.allowedArities <;>
      simp [h1, h2, errUnexpectedState, errInvalidSyntax] at h <;>
        simp [← h, GoError.isReportable]

/-- In the Update state every line is answered with a lone `-ERR` and the
session is left untouched: no handler ever runs again. -/
theorem updateRejects (h : Handler) (s : Session) (line : String) (hs : s.state = stateUpdate) :
    ∃ msg, serveOne h s line = (s, [Event.wireERR msg], true) := by
  simp only [serveOne, hs, stateUpdate, stateTerminateConnection, Nat.reduceEqDiff, if_false,
    Bool.false_eq_true, ite_false]
  cases hv : validators (upperStr ((splitOnSpace line).headD "")) with
  | none => exact ⟨"invalid syntax", rfl⟩
  | some v =>
    have hns : stateUpdate ∉ v.allowedStates := validatorStates_noUpdate v (validators_mem hv)
    have hval : v.validate s (splitOnSpace line).tail = some errUnexpectedState := by
      unfold Validator.validate Validator.allowedState
      rw [hs, if_neg hns]
    dsimp only
    rw [hval]
    exact ⟨"unexpected state transition", rfl⟩

/-- The spec invariant `markedDeleted ⊆ {1 … |messageSizes|}` bounds the
number of deletions by the snapshot size. -/
theorem card_markedDeleted_le (s : Session)
    (hsub : ∀ n ∈ s.markedDeleted, 1 ≤ n ∧ n ≤ s.msgSizes.length) :
    s.markedDeleted.card ≤ s.msgSizes.length := by
  have hss : s.markedDeleted ⊆ Finset.Icc 1 s.msgSizes.length := fun n hn =>
    Finset.mem_Icc.mpr ⟨(hsub n hn).1, (hsub n hn).2⟩
  have := Finset.card_le_card hss
  rwa [Nat.card_Icc, Nat.add_sub_cancel] at this

/-- Under the deletion-set invariant the `uint64` conversion in
`getMessageCount` is the honest difference. -/
theorem getMessageCount_eq (s : Session)
    (hsub : ∀ n ∈ s.markedDeleted, 1 ≤ n ∧ n ≤ s.msgSizes.length)
    (hlen : s.msgSizes.length < 2 ^ 64) :
    getMessageCount s = s.msgSizes.length - s.markedDeleted.card := by
  have hcard := card_markedDeleted_le s hsub
  unfold getMessageCount
  have hp : ((2 : Int) ^ 64) = ((2 ^ 64 : Nat) : Int) := by push_cast
  have h1 : (0 : Int) ≤ (s.msgSizes.length : Int) - (s.markedDeleted.card : Int) := by omega
  have h2 : (s.msgSizes.length : Int) - (s.markedDeleted.card : Int) < (2 : Int) ^ 64 := by
    rw [hp]; omega
  rw [Int.emod_eq_of_lt h1 h2]
  omega

/-- The `uint64` fold of `getMaildropSize` computes the plain sum as long as
the total visible size fits in 64 bits. -/
theorem foldl_mod_sum (del : Finset Nat) (sizes : List Nat) :
    ∀ (l : List Nat) (acc : Nat),
      acc + (l.map fun i => if (i + 1) ∈ del then 0 else sizes.getD i 0).sum < 2 ^ 64 →
      l.foldl (fun a i => if (i + 1) ∈ del then a else (a + sizes.getD i 0) % 2 ^ 64) acc
        = acc + (l.map fun i => if (i + 1) ∈ del then 0 else sizes.getD i 0).sum := by
  intro l
  induction l with
  | nil => intro acc _; simp
  | cons i t ih =>
    intro acc hb
    by_cases hd : (i + 1) ∈ del
    · simp only [List.map_cons, List.sum_cons, if_pos hd] at hb ⊢
      rw [List.foldl_cons, if_pos hd, ih acc (by omega)]
      omega
    · simp only [List.map_cons, List.sum_cons, if_neg hd] at hb ⊢
      rw [List.foldl_cons, if_neg hd,
        Nat.mod_eq_of_lt (by omega), ih (acc + sizes.getD i 0) (by omega)]
      omega

/-- `getMaildropSize` agrees with the spec's sum over non-deleted ordinals. -/
theorem getMaildropSize_eq (s : Session) (hsum : specVisibleSize s < 2 ^ 64) :
    getMaildropSize s = specVisibleSize s := by
  unfold getMaildropSize
  unfold specVisibleSize at hsum ⊢
  have := foldl_mod_sum s.markedDeleted s.msgSizes (List.range s.msgSizes.length) 0 (by omega)
  simpa using this

/-! ## The claims -/

/-- Claim C1: in Transaction state an unrecognized verb such as FOO yields a
single `-ERR` line caused by the reportable syntax error, the session is left
completely unchanged and the loop keeps going, so a subsequent valid command
(here NOOP) still succeeds. -/
theorem claim_C1_unknown_verb (h : Handler) (s : Session) (hs : s.state = stateTransaction) :
    serveOne h s "FOO" = (s, [Event.wireERR "invalid syntax"], true)
    ∧ serveOne h s "NOOP" = (s, [Event.wireOK "doing nothing"], true) := by
  obtain ⟨sv, st, su, sd, sz⟩ := s
  dsimp only at hs
  subst hs
  exact ⟨rfl, rfl⟩

/-- Claim C5: QUIT from Transaction produces exactly one `DeleteMessages`
backend call among all its events, and the set of ordinals passed in that
single call is exactly the set marked deleted at that moment
(order-independent — the event carries the set itself since Go's map
iteration order is unspecified). -/
theorem claim_C5_quit_delete (h : Handler) (s : Session) (hs : s.state = stateTransaction) :
    (serveOne h s "QUIT").2.1.filter isDeleteCall = [Event.callDelete s.markedDeleted] := by
  obtain ⟨sv, st, su, sd, sz⟩ := s
  dsimp only at hs
  subst hs
  show ((fun r => ((handleError r.1 r.2.2 true).1,
      r.2.1 ++ (handleError r.1 r.2.2 true).2.1,
      (handleError r.1 r.2.2 true).2.2))
      (handleQUIT h ⟨sv, stateTransaction, su, sd, sz⟩ [])).2.1.filter isDeleteCall = _
  cases hD : h.DeleteMessages sd with
  | none =>
    simp only [handleQUIT, hD]
    rfl
  | some e =>
    simp only [handleQUIT, hD]
    cases e <;> rfl

/-- Claim C10: QUIT while still in Authorization sets the state to
TerminateConnection before the serve loop exits, so the exit path's unlock
guard (which only skips the release when the state is still Authorization)
calls `UnlockMaildrop` exactly once even though `LockMaildrop` was never
called. -/
theorem claim_C10_unlock_without_lock (h : Handler) (s : Session)
    (hs : s.state = stateAuthorization) :
    (serve h s ["QUIT"]).2.2 = true
    ∧ (serve h s ["QUIT"]).1.state = stateTerminateConnection
    ∧ (serve h s ["QUIT"]).2.1.count Event.callUnlock = 1
    ∧ (serve h s ["QUIT"]).2.1.count Event.callLock = 0 := by
  obtain ⟨sv, st, su, sd, sz⟩ := s
  dsimp only at hs
  subst hs
  have hred : serve h ⟨sv, stateAuthorization, su, sd, sz⟩ ["QUIT"] =
      (⟨sv, stateTerminateConnection, su, sd, sz⟩,
        Event.wireOK "dewey POP3 server signing off"
          :: unlock h ⟨sv, stateTerminateConnection, su, sd, sz⟩, true) := rfl
  rw [hred]
  unfold unlock
  dsimp only
  rw [if_neg (show ¬(stateTerminateConnection = stateAuthorization) by decide)]
  cases h.UnlockMaildrop with
  | none => exact ⟨rfl, rfl, rfl, rfl⟩
  | some e => exact ⟨rfl, rfl, rfl, rfl⟩

/-- Claim C2, amended: once Update is entered no further command is ever
accepted (every later line gets a lone `-ERR` with the session unchanged);
if the deletion call succeeds the session transitions to TerminateConnection
and the next loop iteration closes the connection, and a non-reportable
deletion failure also terminates; but a reportable deletion failure leaves
the session parked in Update, and the engine itself never closes the
connection on that path. -/
theorem claim_C2_amended (h : Handler) (s : Session) (hs : s.state = stateTransaction) :
    ((serveOne h s "QUIT").1.state = stateUpdate ∨
      (serveOne h s "QUIT").1.state = stateTerminateConnection)
    ∧ (h.DeleteMessages s.markedDeleted = none →
        (serveOne h s "QUIT").1.state = stateTerminateConnection ∧
        ∀ (h2 : Handler) (line : String),
          serveOne h2 (serveOne h s "QUIT").1 line = ((serveOne h s "QUIT").1, [], false))
    ∧ (∀ e, h.DeleteMessages s.markedDeleted = some e → e.isReportable = false →
        (serveOne h s "QUIT").1.state = stateTerminateConnection)
    ∧ (∀ e, h.DeleteMessages s.markedDeleted = some e → e.isReportable = true →
        (serveOne h s "QUIT").1.state = stateUpdate ∧
        (serveOne h s "QUIT").2.1 = [Event.callDelete s.markedDeleted, Event.wireERR e.message] ∧
        (serveOne h s "QUIT").2.2 = true)
    ∧ (∀ (h2 : Handler) (t : Session) (line : String), t.state = stateUpdate →
        ∃ msg, serveOne h2 t line = (t, [Event.wireERR msg], true)) := by
  obtain ⟨sv, st, su, sd, sz⟩ := s
  dsimp only at hs
  subst hs
  have hred : serveOne h ⟨sv, stateTransaction, su, sd, sz⟩ "QUIT" =
      (fun r => ((handleError r.1 r.2.2 true).1,
        r.2.1 ++ (handleError r.1 r.2.2 true).2.1,
        (handleError r.1 r.2.2 true).2.2))
      (handleQUIT h ⟨sv, stateTransaction, su, sd, sz⟩ []) := rfl
  rw [hred]
  unfold handleQUIT
  rw [if_neg (show ¬(stateTransaction = stateAuthorization) by decide)]
  dsimp only
  cases h.DeleteMessages sd with
  | none =>
    refine ⟨Or.inr rfl, fun _ => ⟨rfl, fun h2 line => rfl⟩, ?_, ?_, ?_⟩
    · intro e he; cases he
    · intro e he; cases he
    · intro h2 t line ht; exact updateRejects h2 t line ht
  | some e =>
    refine ⟨?_, ?_, ?_, ?_, ?_⟩
    · cases e with
      | reportable m => exact Or.inl rfl
      | eofErr => exact Or.inr rfl
      | plain m => exact Or.inr rfl
    · intro hne; cases hne
    · intro e2 he2 hrep
      obtain rfl : e = e2 := Option.some.inj he2
      cases e with
      | reportable m => cases hrep
      | eofErr => rfl
      | plain m => rfl
    · intro e2 he2 hrep
      obtain rfl : e = e2 := Option.some.inj he2
      cases e with
      | reportable m => exact ⟨rfl, rfl, rfl⟩
      | eofErr => cases hrep
      | plain m => cases hrep
    · intro h2 t line ht; exact updateRejects h2 t line ht

/-- Claim C2, counterexample: with a backend whose batch deletion fails with a
reportable error, QUIT from Transaction leaves the session in Update (not
TerminateConnection) and the serve loop does not exit even after a further
line — the engine never terminates the connection, contradicting the claim
that the session ends regardless of whether the deletion call succeeds. -/
theorem claim_C2_counterexample :
    (serve delFailHandler sTd ["QUIT", "NOOP"]).2.2 = false
    ∧ (serve delFailHandler sTd ["QUIT", "NOOP"]).1.state = stateUpdate
    ∧ (serve delFailHandler sTd ["QUIT", "NOOP"]).2.1 =
        [Event.callDelete {1}, Event.wireERR "db down",
         Event.wireERR "unexpected state transition"] := by decide

/-- Claim C4, counterexample: with a backend whose `GetMessageSize(2)` fails
with a reportable error during sign-in (count 3), PASS leaves the session
alive in Transaction with the half-populated snapshot `[100]`, and a
subsequent STAT answers `+OK 1 100` from that snapshot — contradicting the
claim that any fetch failure is fatal and terminates the session. -/
theorem claim_C4_counterexample :
    (serveOne fetchFailHandler sAuth "PASS pw").1.state = stateTransaction
    ∧ (serveOne fetchFailHandler sAuth "PASS pw").1.msgSizes = [100]
    ∧ (serveOne fetchFailHandler sAuth "PASS pw").2.2 = true
    ∧ serveOne fetchFailHandler (serveOne fetchFailHandler sAuth "PASS pw").1 "STAT"
        = ((serveOne fetchFailHandler sAuth "PASS pw").1, [Event.wireOK "1 100"], true) := by
  decide

/-- Claim C4, amended: a backend failure while fetching the message count or
a message size aborts sign-in with the backend's error propagated unchanged;
when that error is non-reportable the error is fatal, the session state
becomes TerminateConnection and no later command ever runs, so the
half-populated snapshot is never used.  (A reportable backend error instead
leaves the session in Transaction with the partial snapshot, per the
counterexample.) -/
theorem claim_C4_amended (h : Handler) (s : Session) (e : GoError)
    (hs : s.state = stateAuthorization) (hu : s.username ≠ "")
    (hauth : h.AuthenticatePASS s.username "secret" = none)
    (hlock : h.LockMaildrop = none)
    (hfetch : (fetchMaildropStats h).2 = some e)
    (hrep : e.isReportable = false) :
    (serveOne h s "PASS secret").1.state = stateTerminateConnection
    ∧ ∀ (h2 : Handler) (line : String),
        serveOne h2 (serveOne h s "PASS secret").1 line
          = ((serveOne h s "PASS secret").1, [], false) := by
  obtain ⟨sv, st, su, sd, sz⟩ := s
  dsimp only at hs hu hauth
  subst hs
  have hred : serveOne h ⟨sv, stateAuthorization, su, sd, sz⟩ "PASS secret" =
      (fun r => ((handleError r.1 r.2.2 true).1,
        r.2.1 ++ (handleError r.1 r.2.2 true).2.1,
        (handleError r.1 r.2.2 true).2.2))
      (handlePASS h ⟨sv, stateAuthorization, su, sd, sz⟩ ["secret"]) := rfl
  rw [hred]
  unfold handlePASS
  dsimp only
  rw [if_neg hu]
  rw [show (["secret"].getD 0 "") = "secret" from rfl, hauth]
  dsimp only
  unfold signIn
  rw [hlock]
  dsimp only
  rw [hfetch]
  dsimp only
  unfold handleError
  dsimp only
  rw [hrep]
  rw [if_neg (show ¬(false = true) by decide)]
  exact ⟨rfl, fun h2 line => rfl⟩

/-- Claim C6: validation checks state legality before argument arity — if
the state is unacceptable the error is the state error regardless of the
arity — and whenever validation fails `serveOne` runs no handler: the
session is returned unchanged and the only event is the `-ERR` line. -/
theorem claim_C6_validation_order :
    (∀ (v : Validator) (s : Session) (args : List String), s.state ∉ v.allowedStates →
        v.validate s args = some errUnexpectedState)
    ∧ (∀ (h : Handler) (s : Session) (line : String) (v : Validator) (err : GoError),
        s.state ≠ stateTerminateConnection →
        validators (upperStr ((splitOnSpace line).headD "")) = some v →
        v.validate s (splitOnSpace line).tail = some err →
        serveOne h s line = (s, [Event.wireERR err.message], true)) := by
  constructor
  · intro v s args hmem
    unfold Validator.validate Validator.allowedState
    rw [if_neg hmem]
  · intro h s line v err hterm hv hval
    unfold serveOne
    rw [if_neg hterm]
    dsimp only
    rw [hv]
    dsimp only
    rw [hval]
    dsimp only
    have hreport := validate_reportable v s (splitOnSpace line).tail err hval
    unfold handleError
    dsimp only
    rw [hreport, if_pos rfl]

/-- Claim C3 (code bug): TOP with a line budget larger than the message's
line count does not return the whole message without error — `printTopLine`
returns `io.EOF` when the content runs out, `handleTOP` propagates it, and
`handleError` treats `io.EOF` as non-reportable: the session state becomes
TerminateConnection, `HandleSessionError` is invoked, and the next loop
iteration closes the connection (releasing the lock) instead of continuing.
Only the `TOP n 0` part of the claim holds (zero body lines, no error). -/
theorem claim_C3_top_eof_bug :
    serveOne okHandler sTrans "TOP 1 5" =
      ({ sTrans with state := stateTerminateConnection },
       [Event.wireLine "+OK", Event.wireData "hello", Event.wireData "\n",
        Event.wireData "", Event.callSessionError], true)
    ∧ serveOne okHandler sTrans "TOP 1 0" = (sTrans, [Event.wireLine "+OK"], true)
    ∧ (serve okHandler { sTrans with state := stateTerminateConnection } ["STAT"]).2.2 = true
    ∧ (serve okHandler { sTrans with state := stateTerminateConnection } ["STAT"]).2.1
        = [Event.callUnlock] := by decide

/-- Claim C8: for a Transaction session satisfying the deletion-set
invariant, STAT reports exactly `|messageSizes| - |markedDeleted|` and the
sum of the snapshot sizes over non-deleted ordinals. -/
theorem claim_C8_stat (h : Handler) (s : Session)
    (_hst : s.state = stateTransaction)
    (hsub : ∀ n ∈ s.markedDeleted, 1 ≤ n ∧ n ≤ s.msgSizes.length)
    (hlen : s.msgSizes.length < 2 ^ 64)
    (hsum : specVisibleSize s < 2 ^ 64) :
    getMessageCount s = s.msgSizes.length - s.markedDeleted.card
    ∧ getMaildropSize s = specVisibleSize s
    ∧ handleSTAT h s [] =
        (s, [Event.wireOK (toString (s.msgSizes.length - s.markedDeleted.card) ++ " "
          ++ toString (specVisibleSize s))], none) := by
  have h1 := getMessageCount_eq s hsub hlen
  have h2 := getMaildropSize_eq s hsum
  refine ⟨h1, h2, ?_⟩
  unfold handleSTAT respondOK
  rw [h1, h2]

/-- Claim C7: starting from a freshly signed-in Transaction session (empty
deleted set), DELE(n) then RSET restores the session exactly, so STAT
reports the original sign-in count `|messageSizes|` and the full snapshot
size. -/
theorem claim_C7_rset_restores (h : Handler) (s : Session) (sID : String) (n : Nat)
    (_hst : s.state = stateTransaction) (hd : s.markedDeleted = ∅)
    (hparse : parseUint64 sID = some n) (hn1 : 1 ≤ n) (hn2 : n ≤ s.msgSizes.length)
    (hlen : s.msgSizes.length < 2 ^ 64) (hsum : specVisibleSize s < 2 ^ 64) :
    (handleDELE h s [sID]).2.2 = none
    ∧ (handleRSET h (handleDELE h s [sID]).1 []).1 = s
    ∧ handleSTAT h (handleRSET h (handleDELE h s [sID]).1 []).1 [] = handleSTAT h s []
    ∧ getMessageCount (handleRSET h (handleDELE h s [sID]).1 []).1 = s.msgSizes.length
    ∧ getMaildropSize (handleRSET h (handleDELE h s [sID]).1 []).1 = specVisibleSize s := by
  have hdele : handleDELE h s [sID] =
      ({ s with markedDeleted := insert n s.markedDeleted },
       [respondOK ("message " ++ toString n ++ " deleted")], none) := by
    unfold handleDELE withMessageDo
    rw [show ([sID].getD 0 "") = sID from rfl, hparse]
    dsimp only
    rw [if_neg (by omega), if_neg (by rw [hd]; exact Finset.not_mem_empty n)]
  have hback : (handleRSET h (handleDELE h s [sID]).1 []).1 = s := by
    rw [hdele]
    unfold handleRSET
    dsimp only
    rw [← hd]
  refine ⟨by rw [hdele], hback, by rw [hback], ?_, ?_⟩
  · rw [hback]
    have := getMessageCount_eq s (by rw [hd]; intro n hn; cases Finset.not_mem_empty n hn) hlen
    rw [this, hd]
    simp
  · rw [hback]
    exact getMaildropSize_eq s hsum

/-- Claim C9: after DELE(n) succeeds, LIST(n), RETR(n) and DELE(n) each
yield the reportable "already deleted" error without touching the session,
an out-of-range ordinal yields the reportable "no such message" error, and
`handleError` on any reportable error keeps the session unchanged and the
loop running. -/
theorem claim_C9_deleted_errors (h : Handler) (s : Session) (sID : String) (n : Nat)
    (_hst : s.state = stateTransaction)
    (hparse : parseUint64 sID = some n) (hn1 : 1 ≤ n) (hn2 : n ≤ s.msgSizes.length)
    (hnd : n ∉ s.markedDeleted) :
    (handleDELE h s [sID]).2.2 = none
    ∧ (handleDELE h s [sID]).1 = { s with markedDeleted := insert n s.markedDeleted }
    ∧ handleLIST h (handleDELE h s [sID]).1 [sID]
        = ((handleDELE h s [sID]).1, [],
           some (GoError.reportable ("message " ++ toString n ++ " already deleted")))
    ∧ handleRETR h (handleDELE h s [sID]).1 [sID]
        = ((handleDELE h s [sID]).1, [],
           some (GoError.reportable ("message " ++ toString n ++ " already deleted")))
    ∧ handleDELE h (handleDELE h s [sID]).1 [sID]
        = ((handleDELE h s [sID]).1, [],
           some (GoError.reportable ("message " ++ toString n ++ " already deleted")))
    ∧ (∀ (sID2 : String) (m : Nat), parseUint64 sID2 = some m →
        m = 0 ∨ m > s.msgSizes.length →
        handleLIST h (handleDELE h s [sID]).1 [sID2]
          = ((handleDELE h s [sID]).1, [],
             some (GoError.reportable ("no such message: " ++ toString m))))
    ∧ (∀ e : GoError, e.isReportable = true →
        handleError (handleDELE h s [sID]).1 (some e) true
          = ((handleDELE h s [sID]).1, [Event.wireERR e.message], true)) := by
  have hdele : handleDELE h s [sID] =
      ({ s with markedDeleted := insert n s.markedDeleted },
       [respondOK ("message " ++ toString n ++ " deleted")], none) := by
    unfold handleDELE withMessageDo
    rw [show ([sID].getD 0 "") = sID from rfl, hparse]
    dsimp only
    rw [if_neg (by omega), if_neg hnd]
  have hwmd : ∀ (fn : Nat → HRes),
      withMessageDo { s with markedDeleted := insert n s.markedDeleted } sID fn
        = ({ s with markedDeleted := insert n s.markedDeleted }, [],
           some (GoError.reportable ("message " ++ toString n ++ " already deleted"))) := by
    intro fn
    unfold withMessageDo
    rw [hparse]
    dsimp only
    rw [if_neg (by omega), if_pos (Finset.mem_insert_self n s.markedDeleted)]
  refine ⟨by rw [hdele], by rw [hdele], ?_, ?_, ?_, ?_, ?_⟩
  · rw [hdele]
    unfold handleLIST
    dsimp only
    rw [if_pos (show [sID].length = 1 from rfl)]
    exact hwmd _
  · rw [hdele]
    unfold handleRETR
    exact hwmd _
  · rw [hdele]
    unfold handleDELE
    exact hwmd _
  · intro sID2 m hparse2 hrange
    rw [hdele]
    unfold handleLIST withMessageDo
    dsimp only
    rw [if_pos (show [sID2].length = 1 from rfl),
      show ([sID2].getD 0 "") = sID2 from rfl, hparse2]
    dsimp only
    rw [if_pos hrange]
  · intro e he
    unfold handleError
    dsimp only
    rw [he, if_pos rfl]

/-- Witness for claim C1 at the concrete two-message session. -/
theorem claim_C1_witness :
    serveOne okHandler sTrans "FOO" = (sTrans, [Event.wireERR "invalid syntax"], true)
    ∧ serveOne okHandler sTrans "NOOP" = (sTrans, [Event.wireOK "doing nothing"], true) :=
  claim_C1_unknown_verb okHandler sTrans rfl

/-- Witness for the amended claim C2: with a succeeding deletion the session
reaches TerminateConnection and the next interaction refuses to run. -/
theorem claim_C2_witness :
    (serveOne okHandler sTd "QUIT").1.state = stateTerminateConnection
    ∧ serveOne okHandler (serveOne okHandler sTd "QUIT").1 "STAT"
        = ((serveOne okHandler sTd "QUIT").1, [], false) :=
  ⟨((claim_C2_amended okHandler sTd rfl).2.1 rfl).1,
   ((claim_C2_amended okHandler sTd rfl).2.1 rfl).2 okHandler "STAT"⟩

/-- Witness for the amended claim C4: a non-reportable count-fetch failure
terminates the session and no later command runs. -/
theorem claim_C4_witness :
    (serveOne countFailHandler sAuth "PASS secret").1.state = stateTerminateConnection
    ∧ serveOne countFailHandler (serveOne countFailHandler sAuth "PASS secret").1 "STAT"
        = ((serveOne countFailHandler sAuth "PASS secret").1, [], false) :=
  ⟨(claim_C4_amended countFailHandler sAuth (GoError.plain "boom")
      rfl (by decide) rfl rfl rfl rfl).1,
   (claim_C4_amended countFailHandler sAuth (GoError.plain "boom")
      rfl (by decide) rfl rfl rfl rfl).2 countFailHandler "STAT"⟩

/-- Witness for claim C5 with ordinal 1 marked deleted. -/
theorem claim_C5_witness :
    (serveOne okHandler sTd "QUIT").2.1.filter isDeleteCall = [Event.callDelete {1}] :=
  claim_C5_quit_delete okHandler sTd rfl

/-- Witness for claim C6: DELE with wrong state and wrong arity produces the
state error. -/
theorem claim_C6_witness :
    Validator.validate ⟨[stateTransaction], [1]⟩ sAuth [] = some errUnexpectedState
    ∧ serveOne okHandler sAuth "DELE"
        = (sAuth, [Event.wireERR "unexpected state transition"], true) :=
  ⟨claim_C6_validation_order.1 ⟨[stateTransaction], [1]⟩ sAuth [] (by decide),
   claim_C6_validation_order.2 okHandler sAuth "DELE" ⟨[stateTransaction], [1]⟩
     errUnexpectedState (by decide) rfl rfl⟩

/-- Witness for claim C7 on the two-message session. -/
theorem claim_C7_witness :
    (handleDELE okHandler sTrans ["1"]).2.2 = none
    ∧ (handleRSET okHandler (handleDELE okHandler sTrans ["1"]).1 []).1 = sTrans
    ∧ handleSTAT okHandler (handleRSET okHandler (handleDELE okHandler sTrans ["1"]).1 []).1 []
        = handleSTAT okHandler sTrans []
    ∧ getMessageCount (handleRSET okHandler (handleDELE okHandler sTrans ["1"]).1 []).1 = 2
    ∧ getMaildropSize (handleRSET okHandler (handleDELE okHandler sTrans ["1"]).1 []).1 = 300 :=
  claim_C7_rset_restores okHandler sTrans "1" 1 rfl rfl (by decide) (by decide) (by decide)
    (by decide) (by decide)

/-- Witness for claim C8 with ordinal 1 deleted. -/
theorem claim_C8_witness :
    getMessageCount sTd = 1
    ∧ getMaildropSize sTd = 200
    ∧ handleSTAT okHandler sTd [] = (sTd, [Event.wireOK "1 200"], none) :=
  claim_C8_stat okHandler sTd rfl (by decide) (by decide) (by decide)

/-- Witness for claim C9 deleting ordinal 2. -/
theorem claim_C9_witness :
    (handleDELE okHandler sTrans ["2"]).2.2 = none
    ∧ handleLIST okHandler (handleDELE okHandler sTrans ["2"]).1 ["2"]
        = ((handleDELE okHandler sTrans ["2"]).1, [],
           some (GoError.reportable "message 2 already deleted"))
    ∧ handleLIST okHandler (handleDELE okHandler sTrans ["2"]).1 ["9"]
        = ((handleDELE okHandler sTrans ["2"]).1, [],
           some (GoError.reportable "no such message: 9")) := by
  have H := claim_C9_deleted_errors okHandler sTrans "2" 2 rfl (by decide) (by decide)
    (by decide) (by decide)
  exact ⟨H.1, H.2.2.1, H.2.2.2.2.2.1 "9" 9 (by decide) (by decide)⟩

/-- Witness for claim C10. -/
theorem claim_C10_witness :
    (serve okHandler sAuth ["QUIT"]).2.2 = true
    ∧ (serve okHandler sAuth ["QUIT"]).1.state = stateTerminateConnection
    ∧ (serve okHandler sAuth ["QUIT"]).2.1.count Event.callUnlock = 1
    ∧ (serve okHandler sAuth ["QUIT"]).2.1.count Event.callLock = 0 :=
  claim_C10_unlock_without_lock okHandler sAuth rfl
